import Mathlib

/-!
Verification of the role-based access and moderation workflow of the
studyplanner repository: the Authorization Resolver (checkUserRole), the
Admin Data Aggregator (loadAdminData), the Role Mutation Service
(assignRole / removeRole), the Complaint Resolution Service (handleReply),
and the ungated duplicate Admin dashboard (fetchData) together with the
route table (AppRoutes).

The remote row store (Supabase) is modelled as lists of rows per
collection; asynchronous failures are injected through explicit Boolean
flags, mirroring the error objects the store client returns.
-/

namespace StudyPlanner

/-- Role values of the user_roles table: the TS union
type accepted by the components is the closed set
user | moderator | admin. -/
inductive Role
  | user
  | moderator
  | admin
deriving DecidableEq, Repr

/-- Complaint lifecycle status: the TS union type pending | resolved. -/
inductive CStatus
  | pending
  | resolved
deriving DecidableEq, Repr

/-- A row of the users collection (interface User in the Admin component). -/
structure Account where
  id : String
  name : String
  email : String
  institution : Option String
  phone : Option String
  created_at : String
deriving DecidableEq, Repr

/-- A row of the user_roles collection (interface UserRole). -/
structure UserRole where
  id : String
  user_id : String
  role : Role
  assigned_by : String
  created_at : String
deriving DecidableEq, Repr

/-- A row of the complaints collection (interface Complaint); the three
reply fields are optional in the TS interface. -/
structure Complaint where
  id : String
  email : String
  phone : String
  subject : String
  message : String
  status : CStatus
  created_at : String
  admin_reply : Option String
  replied_at : Option String
  replied_by : Option String
deriving DecidableEq, Repr

/-- A row of the contacts collection (interface Contact in the duplicate
Admin dashboard). -/
structure Contact where
  id : String
  name : String
  email : String
  message : String
  created_at : String
deriving DecidableEq, Repr

/-- The remote store: one list of rows per collection. -/
structure Store where
  users : List Account
  user_roles : List UserRole
  complaints : List Complaint
  contacts : List Contact
deriving DecidableEq, Repr

/-- Errors of the store client: a connectivity or permission failure, the
not-exactly-one-row error of a single-row read, or a rejected write. -/
inductive StoreError
  | connectivity
  | notSingle
  | writeFailed
deriving DecidableEq, Repr

/-- The rows of user_roles matching a given account identity: the
eq filter of the resolver query (from user_roles, eq user_id uid). -/
def rolesFor (rows : List UserRole) (uid : String) : List UserRole :=
  rows.filter fun r => r.user_id == uid

/-- The single-row read modifier of the store client: succeeds exactly
when the filtered result holds one row, and reports an error on zero rows
or on multiple rows. -/
def selectSingle {α : Type} (rows : List α) : Except StoreError α :=
  match rows with
  | [a] => .ok a
  | _ => .error .notSingle

/-- The role lookup issued by checkUserRole: from user_roles, select role,
eq user_id uid, single. The connFail flag injects a transient
connectivity failure of the whole call. -/
def lookupRole (store : Store) (uid : String) (connFail : Bool) :
    Except StoreError Role :=
  if connFail then .error .connectivity
  else (selectSingle (rolesFor store.user_roles uid)).map fun r => r.role

/-- checkUserRole from the Admin component: any error of the lookup sets
the current role to the default user; otherwise the looked-up
role is taken. The function is total: no failure escapes to the caller. -/
def checkUserRole (store : Store) (uid : String) (connFail : Bool) : Role :=
  match lookupRole store uid connFail with
  | .ok r => r
  | .error _ => .user

/-- Modelled from the spec: the store schema (the SQL table definitions
behind the Supabase client) is not part of src/, so the conflict target of
the upsert on user_roles is taken from the spec, which states that the
Role Mutation Service performs an upsert of a RoleAssignment record keyed
by target-account reference, with the creation timestamp set only on
first insert. When a row for the account exists, role and assigned_by are
overwritten in place (id and created_at kept); otherwise the fresh row is
appended. -/
def upsertUserRole (rows : List UserRole) (row : UserRole) : List UserRole :=
  if rows.any (fun r => r.user_id == row.user_id) then
    rows.map fun r =>
      if r.user_id == row.user_id then
        { r with role := row.role, assigned_by := row.assigned_by }
      else r
  else rows ++ [row]

/-- assignRole from the Admin component, at the store level: upserts a
user_roles record for the target account with the chosen role and the
acting admin as assigned_by. freshId and freshTime stand for the id and
created_at the store generates on a first insert. The Boolean result
records whether the write succeeded (on failure the component alerts and
the store is unchanged). -/
def assignRole (store : Store) (target : String) (newRole : Role)
    (adminId freshId freshTime : String) (writeFails : Bool) :
    Store × Bool :=
  if writeFails then (store, false)
  else
    ({ store with
        user_roles :=
          upsertUserRole store.user_roles
            ⟨freshId, target, newRole, adminId, freshTime⟩ }, true)

/-- removeRole from the Admin component: deletes the user_roles rows whose
id equals the given role-row id (delete, eq id roleId). Deleting zero
rows is not an error. -/
def removeRole (store : Store) (roleId : String) (writeFails : Bool) :
    Store × Bool :=
  if writeFails then (store, false)
  else
    ({ store with
        user_roles := store.user_roles.filter fun r => !(r.id == roleId) },
     true)

/-- The local state of the Admin component (part of its useState hooks
relevant to the verified behaviour). -/
structure AdminState where
  users : List Account
  userRoles : List UserRole
  complaints : List Complaint
  isLoading : Bool
  currentUserRole : Role
  showReplyModal : Bool
  selectedComplaint : Option Complaint
  replyMessage : String
  isReplying : Bool
deriving DecidableEq, Repr

/-- Outcome of a handleReply call: the guard rejected the input before any
store call, the store write failed (failure alert), or the write succeeded
(success alert). -/
inductive ReplyResult
  | rejected
  | failed
  | success
deriving DecidableEq, Repr

/-- The trim() of JavaScript strings, applied by handleReply to the reply
draft: strips whitespace characters from both ends. Written over the
character list so that concrete instances evaluate. -/
def jsTrim (s : String) : String :=
  String.mk
    (((s.data.dropWhile Char.isWhitespace).reverse.dropWhile
        Char.isWhitespace).reverse)

/-- The update issued by handleReply on the complaints collection: every
row whose id matches the selected complaint gets status resolved, the
trimmed reply, the capture timestamp, and the responder. When no user is
signed in, the replied_by field of the JSON payload is undefined and is
dropped by serialization, leaving the stored value unchanged. -/
def updateComplaintRows (rows : List Complaint) (cid reply now : String)
    (uid : Option String) : List Complaint :=
  rows.map fun c =>
    if c.id == cid then
      { c with
          status := .resolved
          admin_reply := some reply
          replied_at := some now
          replied_by := match uid with | some u => some u | none => c.replied_by }
    else c

/-- handleReply from the Admin component: guard (no selected complaint or
blank reply) returns before any store call; on a failed write the store
and the reply draft are untouched and a failure alert is raised; on
success the update is applied, the modal closes, the draft is cleared and
the complaints view is re-fetched from the store. -/
def handleReply (store : Store) (st : AdminState) (user : Option String)
    (now : String) (writeFails : Bool) :
    Store × AdminState × ReplyResult :=
  match st.selectedComplaint with
  | none => (store, st, .rejected)
  | some c =>
    if jsTrim st.replyMessage = "" then (store, st, .rejected)
    else if writeFails then
      (store, { st with isReplying := false }, .failed)
    else
      let store' :=
        { store with
            complaints :=
              updateComplaintRows store.complaints c.id
                (jsTrim st.replyMessage) now user }
      (store',
       { st with
          showReplyModal := false
          selectedComplaint := none
          replyMessage := ""
          complaints := store'.complaints
          isReplying := false },
       .success)

/-- Which of the three reads of loadAdminData fail. -/
structure ReadFailures where
  usersFail : Bool
  rolesFail : Bool
  complaintsFail : Bool
deriving DecidableEq, Repr

/-- loadAdminData from the Admin component: the three loaders run jointly;
each one, on a store error, logs the failure and returns without touching
its collection (so a failed collection keeps its previous value), and on
success stores the read rows. Afterwards the loading flag clears. The
returned list collects the console error messages. -/
def loadAdminData (store : Store) (st : AdminState) (f : ReadFailures) :
    AdminState × List String :=
  let st1 := if f.usersFail then st else { st with users := store.users }
  let log1 : List String := if f.usersFail then ["Error loading users"] else []
  let st2 := if f.rolesFail then st1 else { st1 with userRoles := store.user_roles }
  let log2 : List String := if f.rolesFail then ["Error loading user roles"] else []
  let st3 := if f.complaintsFail then st2 else { st2 with complaints := store.complaints }
  let log3 : List String := if f.complaintsFail then ["Error loading complaints"] else []
  ({ st3 with isLoading := false }, log1 ++ log2 ++ log3)

/-- The local state of the duplicate Admin dashboard. -/
structure DupAdminState where
  complaints : List Complaint
  contacts : List Contact
  loading : Bool
deriving DecidableEq, Repr

/-- fetchData from the duplicate Admin dashboard: reads the complaints and
contacts collections and renders whatever comes back, then clears the
loading flag. The viewer argument carries the identity and resolved role
available in the ambient contexts; the source body never consults them
and performs no authorization check. Read errors only leave the affected
collection at its previous value (data is null). The first component
lists the collections read, always the same two. -/
def fetchData (store : Store) (viewer : Option String × Role)
    (complaintsFail contactsFail : Bool) (st : DupAdminState) :
    List String × DupAdminState :=
  let st1 := if complaintsFail then st else { st with complaints := store.complaints }
  let st2 := if contactsFail then st1 else { st1 with contacts := store.contacts }
  (["complaints", "contacts"], { st2 with loading := false })

/-- The route table of AppRoutes: each path with whether its element is
wrapped in ProtectedRoute. -/
def appRoutes : List (String × Bool) :=
  [("/", false), ("/signin", false), ("/signup", false),
   ("/reset-password", false), ("/dashboard", true), ("/calendar", true),
   ("/group-study", true), ("/notes", true), ("/study-status", true),
   ("/admin", false), ("/moderator", false)]

/-- Whether a path is wrapped in ProtectedRoute in AppRoutes. -/
def routeIsProtected (path : String) : Bool :=
  match appRoutes.lookup path with
  | some b => b
  | none => false

/-- The all-or-nothing reply invariant of a complaint row: either status
pending with all three reply fields absent, or status resolved with all
three present. -/
def complaintInv (c : Complaint) : Bool :=
  match c.status, c.admin_reply, c.replied_at, c.replied_by with
  | .pending, none, none, none => true
  | .resolved, some _, some _, some _ => true
  | _, _, _, _ => false



/-! ### Concrete sample data for witness instances -/

/-- A sample account with identity A. -/
def acctA : Account :=
  ⟨"A", "Alice", "alice@example.com", none, none, "t0"⟩

/-- A moderator role row for account A. -/
def roleRowA : UserRole := ⟨"r1", "A", .moderator, "adm", "t0"⟩

/-- A second, conflicting role row for account A. -/
def roleRowA2 : UserRole := ⟨"r2", "A", .admin, "adm", "t1"⟩

/-- A pending complaint with no reply fields. -/
def complaint0 : Complaint :=
  ⟨"c1", "x@y.com", "123", "Bug", "It breaks", .pending, "t0", none, none, none⟩

/-- A contact message row. -/
def contact0 : Contact := ⟨"k1", "Bob", "bob@example.com", "Hi", "t0"⟩

/-- A store in which account A has no role row. -/
def store0 : Store := ⟨[acctA], [], [complaint0], [contact0]⟩

/-- A store in which account A has exactly one role row. -/
def store1 : Store := ⟨[acctA], [roleRowA], [complaint0], [contact0]⟩

/-- A store in which account A has two role rows. -/
def store2 : Store := ⟨[acctA], [roleRowA, roleRowA2], [complaint0], [contact0]⟩

/-- The initial Admin component state of a fresh mount. -/
def adminState0 : AdminState :=
  ⟨[], [], [], true, .user, false, none, "", false⟩

/-- The Admin component state with the reply modal open on complaint0 and
a drafted reply. -/
def replyState0 : AdminState :=
  { adminState0 with
      selectedComplaint := some complaint0
      replyMessage := " Fixed in v2 "
      showReplyModal := true }

/-- The Admin component state with the reply modal open on complaint0 and
a whitespace-only draft. -/
def blankReplyState : AdminState :=
  { adminState0 with
      selectedComplaint := some complaint0
      replyMessage := "   "
      showReplyModal := true }

/-- The initial state of the duplicate Admin dashboard. -/
def dupState0 : DupAdminState := ⟨[], [], true⟩

/-! ### Helper lemmas -/

theorem rolesFor_append (rows rows2 : List UserRole) (uid : String) :
    rolesFor (rows ++ rows2) uid = rolesFor rows uid ++ rolesFor rows2 uid := by
  simp [rolesFor, List.filter_append]

theorem any_eq_false_of_rolesFor_nil (rows : List UserRole) (uid : String)
    (h : rolesFor rows uid = []) :
    rows.any (fun r => r.user_id == uid) = false := by
  rw [rolesFor, List.filter_eq_nil_iff] at h
  rw [List.any_eq_false]
  intro x hx
  exact h x hx

theorem checkUserRole_of_rolesFor_nil (store : Store) (uid : String)
    (h : rolesFor store.user_roles uid = []) :
    checkUserRole store uid false = .user := by
  simp [checkUserRole, lookupRole, h, selectSingle, Except.map]

theorem checkUserRole_of_rolesFor_one (store : Store) (uid : String)
    (row : UserRole) (h : rolesFor store.user_roles uid = [row]) :
    checkUserRole store uid false = row.role := by
  simp [checkUserRole, lookupRole, h, selectSingle, Except.map]

theorem rolesFor_filter (rows : List UserRole) (p : UserRole → Bool)
    (uid : String) :
    rolesFor (rows.filter p) uid = (rolesFor rows uid).filter p := by
  unfold rolesFor
  rw [List.filter_filter, List.filter_filter]
  apply List.filter_congr
  intro x hx
  exact Bool.and_comm _ _

theorem rolesFor_upsert (rows : List UserRole) (row : UserRole)
    (h : (rolesFor rows row.user_id).length ≤ 1) :
    ∃ keep : UserRole,
      rolesFor (upsertUserRole rows row) row.user_id = [keep] ∧
      keep.user_id = row.user_id ∧ keep.role = row.role ∧
      keep.assigned_by = row.assigned_by := by
  cases hany : rows.any (fun r => r.user_id == row.user_id) with
  | false =>
    have hnil : rolesFor rows row.user_id = [] := by
      unfold rolesFor
      rw [List.filter_eq_nil_iff]
      intro a ha
      have := List.any_eq_false.mp hany a ha
      simpa using this
    refine ⟨row, ?_, rfl, rfl, rfl⟩
    unfold upsertUserRole
    rw [hany]
    simp only [Bool.false_eq_true, if_false]
    rw [rolesFor_append, hnil]
    simp [rolesFor]
  | true =>
    obtain ⟨x, hx, hpx⟩ := List.any_eq_true.mp hany
    have hxf : x ∈ rolesFor rows row.user_id :=
      List.mem_filter.mpr ⟨hx, hpx⟩
    have hne : rolesFor rows row.user_id ≠ [] := List.ne_nil_of_mem hxf
    obtain ⟨a, ha⟩ : ∃ a, rolesFor rows row.user_id = [a] := by
      rcases hl : rolesFor rows row.user_id with _ | ⟨a, t⟩
      · exact absurd hl hne
      · rcases t with _ | ⟨b, t2⟩
        · exact ⟨a, rfl⟩
        · rw [hl] at h
          simp at h
    have hau : (a.user_id == row.user_id) = true := by
      have : a ∈ rolesFor rows row.user_id := by rw [ha]; exact List.mem_singleton.mpr rfl
      exact (List.mem_filter.mp this).2
    have hcomm :
        rolesFor (upsertUserRole rows row) row.user_id =
          (rolesFor rows row.user_id).map (fun r =>
            if r.user_id == row.user_id then
              { r with role := row.role, assigned_by := row.assigned_by }
            else r) := by
      unfold upsertUserRole
      rw [hany]
      simp only [if_true]
      unfold rolesFor
      rw [List.filter_map]
      congr 1
      apply List.filter_congr
      intro r hr
      by_cases hru : (r.user_id == row.user_id) = true
      · simp [Function.comp, hru]
      · simp [Function.comp, hru]
    refine ⟨{ a with role := row.role, assigned_by := row.assigned_by }, ?_, ?_, rfl, rfl⟩
    · rw [hcomm, ha]
      simp only [List.map_cons, List.map_nil]
      rw [if_pos hau]
    · simpa using hau

theorem upsertUserRole_of_absent (rows : List UserRole) (row : UserRole)
    (h : rolesFor rows row.user_id = []) :
    upsertUserRole rows row = rows ++ [row] := by
  unfold upsertUserRole
  rw [any_eq_false_of_rolesFor_nil rows row.user_id h]
  simp

theorem upsertUserRole_of_absent_uid (rows : List UserRole) (row : UserRole)
    (uid : String) (hrow : row.user_id = uid) (h : rolesFor rows uid = []) :
    upsertUserRole rows row = rows ++ [row] := by
  subst hrow
  exact upsertUserRole_of_absent rows row h

theorem rolesFor_upsert_uid (rows : List UserRole) (row : UserRole)
    (uid : String) (hrow : row.user_id = uid)
    (h : (rolesFor rows uid).length ≤ 1) :
    ∃ keep : UserRole,
      rolesFor (upsertUserRole rows row) uid = [keep] ∧
      keep.user_id = uid ∧ keep.role = row.role ∧
      keep.assigned_by = row.assigned_by := by
  subst hrow
  exact rolesFor_upsert rows row h

theorem handleReply_eq_of_none (store : Store) (st : AdminState)
    (user : Option String) (now : String) (wf : Bool)
    (h : st.selectedComplaint = none) :
    handleReply store st user now wf = (store, st, .rejected) := by
  unfold handleReply
  rw [h]

theorem handleReply_eq_of_blank (store : Store) (st : AdminState)
    (user : Option String) (now : String) (wf : Bool)
    (h : jsTrim st.replyMessage = "") :
    handleReply store st user now wf = (store, st, .rejected) := by
  unfold handleReply
  cases st.selectedComplaint <;> simp [h]

theorem handleReply_eq_of_failed (store : Store) (st : AdminState)
    (user : Option String) (now : String) (c : Complaint)
    (hc : st.selectedComplaint = some c) (hm : jsTrim st.replyMessage ≠ "") :
    handleReply store st user now true =
      (store, { st with isReplying := false }, .failed) := by
  unfold handleReply
  rw [hc]
  simp [if_neg hm]

theorem handleReply_eq_of_success (store : Store) (st : AdminState)
    (user : Option String) (now : String) (c : Complaint)
    (hc : st.selectedComplaint = some c) (hm : jsTrim st.replyMessage ≠ "") :
    handleReply store st user now false =
      ({ store with
          complaints :=
            updateComplaintRows store.complaints c.id
              (jsTrim st.replyMessage) now user },
       { st with
          showReplyModal := false
          selectedComplaint := none
          replyMessage := ""
          complaints :=
            updateComplaintRows store.complaints c.id
              (jsTrim st.replyMessage) now user
          isReplying := false },
       .success) := by
  unfold handleReply
  rw [hc]
  simp [if_neg hm]

/-! ### Claim theorems -/

/-- C4: for every account with no user_roles row, and whenever the role
lookup fails for any reason, checkUserRole yields the default role user;
the resolver is a total function into Role, so the failure is swallowed
and never surfaced to the caller. -/
theorem resolver_defaults_to_user (store : Store) (uid : String)
    (connFail : Bool)
    (h : rolesFor store.user_roles uid = [] ∨ connFail = true) :
    checkUserRole store uid connFail = .user := by
  rcases h with h | h
  · cases connFail with
    | false => exact checkUserRole_of_rolesFor_nil store uid h
    | true => simp [checkUserRole, lookupRole]
  · simp [checkUserRole, lookupRole, h]

/-- Witness for C4 at account A of store0, which has no role row. -/
theorem resolver_defaults_to_user_witness :
    (rolesFor store0.user_roles "A" = [] ∨ false = true) ∧
    checkUserRole store0 "A" false = .user :=
  ⟨Or.inl rfl, resolver_defaults_to_user store0 "A" false (Or.inl rfl)⟩

/-- C5: for every account with exactly one user_roles row, checkUserRole
returns that row's role value. -/
theorem resolver_returns_single_row_role (store : Store) (uid : String)
    (row : UserRole) (h : rolesFor store.user_roles uid = [row]) :
    checkUserRole store uid false = row.role :=
  checkUserRole_of_rolesFor_one store uid row h

/-- Witness for C5 at account A of store1, whose only role row carries
moderator. -/
theorem resolver_returns_single_row_role_witness :
    rolesFor store1.user_roles "A" = [roleRowA] ∧
    checkUserRole store1 "A" false = roleRowA.role :=
  ⟨by decide, resolver_returns_single_row_role store1 "A" roleRowA (by decide)⟩

/-- C9: for every account with more than one user_roles row, the
single-row lookup errors on the multiple matches and the error path of
checkUserRole yields the default role user, not the role of any existing
row. -/
theorem resolver_defaults_on_multiple_rows (store : Store) (uid : String)
    (h : 2 ≤ (rolesFor store.user_roles uid).length) :
    checkUserRole store uid false = .user := by
  rcases hl : rolesFor store.user_roles uid with _ | ⟨a, _ | ⟨b, t⟩⟩
  · rw [hl] at h
    simp at h
  · rw [hl] at h
    simp at h
  · simp [checkUserRole, lookupRole, hl, selectSingle, Except.map]

/-- Witness for C9 at account A of store2, which has two role rows
(moderator and admin); the resolver yields user. -/
theorem resolver_defaults_on_multiple_rows_witness :
    2 ≤ (rolesFor store2.user_roles "A").length ∧
    checkUserRole store2 "A" false = .user :=
  ⟨by decide, resolver_defaults_on_multiple_rows store2 "A" (by decide)⟩

/-- C1: applying assignRole twice with different role values to the same
account leaves exactly one user_roles row for the account, and that row's
role equals the last value applied. The hypothesis is the store's
unique-key invariant: at most one row per account before the operation. -/
theorem assignRole_overwrite (store : Store) (target : String) (r1 r2 : Role)
    (admin1 admin2 id1 t1 id2 t2 : String)
    (hkey : (rolesFor store.user_roles target).length ≤ 1)
    (hne : r1 ≠ r2) :
    (assignRole store target r1 admin1 id1 t1 false).2 = true ∧
    (assignRole (assignRole store target r1 admin1 id1 t1 false).1 target r2
        admin2 id2 t2 false).2 = true ∧
    ∃ row,
      rolesFor
        (assignRole (assignRole store target r1 admin1 id1 t1 false).1 target
          r2 admin2 id2 t2 false).1.user_roles target = [row] ∧
      row.role = r2 := by
  refine ⟨rfl, rfl, ?_⟩
  obtain ⟨keep1, hk1, hk1u, hk1r, hk1a⟩ :=
    rolesFor_upsert_uid store.user_roles ⟨id1, target, r1, admin1, t1⟩ target
      rfl hkey
  obtain ⟨keep2, hk2, hk2u, hk2r, hk2a⟩ :=
    rolesFor_upsert_uid
      (upsertUserRole store.user_roles ⟨id1, target, r1, admin1, t1⟩)
      ⟨id2, target, r2, admin2, t2⟩ target rfl (by rw [hk1]; simp)
  exact ⟨keep2, hk2, hk2r⟩

/-- Witness for C1: assigning user then moderator to account A of store0
leaves one row carrying moderator. -/
theorem assignRole_overwrite_witness :
    (rolesFor store0.user_roles "A").length ≤ 1 ∧
    Role.user ≠ Role.moderator ∧
    ∃ row,
      rolesFor
        (assignRole (assignRole store0 "A" .user "adm" "i1" "t1" false).1 "A"
          .moderator "adm2" "i2" "t2" false).1.user_roles "A" = [row] ∧
      row.role = .moderator :=
  ⟨by decide, by decide,
   (assignRole_overwrite store0 "A" .user .moderator "adm" "adm2" "i1" "t1"
     "i2" "t2" (by decide) (by decide)).2.2⟩

/-- C3: round-trip of role assignment. For an account with no role row the
resolver yields user; after assignRole moderator it yields moderator;
after removeRole deletes that row it yields user again. -/
theorem role_roundtrip (store : Store) (a adminId fid ft : String)
    (h : rolesFor store.user_roles a = []) :
    checkUserRole store a false = .user ∧
    checkUserRole (assignRole store a .moderator adminId fid ft false).1 a
      false = .moderator ∧
    checkUserRole
      (removeRole (assignRole store a .moderator adminId fid ft false).1 fid
        false).1 a false = .user := by
  have hs1 : (assignRole store a .moderator adminId fid ft false).1.user_roles
      = store.user_roles ++ [⟨fid, a, .moderator, adminId, ft⟩] :=
    upsertUserRole_of_absent_uid store.user_roles
      ⟨fid, a, .moderator, adminId, ft⟩ a rfl h
  refine ⟨checkUserRole_of_rolesFor_nil store a h, ?_, ?_⟩
  · apply checkUserRole_of_rolesFor_one _ _ (⟨fid, a, .moderator, adminId, ft⟩ : UserRole)
    rw [hs1, rolesFor_append, h]
    simp [rolesFor]
  · apply checkUserRole_of_rolesFor_nil
    have hs2 :
        (removeRole (assignRole store a .moderator adminId fid ft false).1 fid
          false).1.user_roles =
        ((store.user_roles ++ [(⟨fid, a, .moderator, adminId, ft⟩ : UserRole)]).filter
          fun r => !(r.id == fid)) := by
      show ((assignRole store a .moderator adminId fid ft false).1.user_roles.filter
        fun r => !(r.id == fid)) = _
      rw [hs1]
    rw [hs2, rolesFor_filter, rolesFor_append, h]
    simp [rolesFor]

/-- Witness for C3 on store0, where account A starts with no role row. -/
theorem role_roundtrip_witness :
    rolesFor store0.user_roles "A" = [] ∧
    checkUserRole store0 "A" false = .user ∧
    checkUserRole (assignRole store0 "A" .moderator "adm" "r9" "t9" false).1
      "A" false = .moderator ∧
    checkUserRole
      (removeRole (assignRole store0 "A" .moderator "adm" "r9" "t9" false).1
        "r9" false).1 "A" false = .user :=
  ⟨rfl, (role_roundtrip store0 "A" "adm" "r9" "t9" rfl).1,
   (role_roundtrip store0 "A" "adm" "r9" "t9" rfl).2.1,
   (role_roundtrip store0 "A" "adm" "r9" "t9" rfl).2.2⟩

/-- C2: a successful call of handleReply with a signed-in responder is
all-or-nothing. Afterwards the selected complaint has status resolved with
admin_reply, replied_at and replied_by all set, and the all-or-nothing
reply invariant keeps holding for every complaint row: no reachable state
has status resolved with admin_reply absent. -/
theorem handleReply_all_or_nothing (store : Store) (st : AdminState)
    (u now : String) (c : Complaint)
    (hc : st.selectedComplaint = some c)
    (hm : jsTrim st.replyMessage ≠ "")
    (hinv : ∀ d ∈ store.complaints, complaintInv d = true) :
    (handleReply store st (some u) now false).2.2 = .success ∧
    (∀ d ∈ (handleReply store st (some u) now false).1.complaints,
      complaintInv d = true) ∧
    (∀ d ∈ (handleReply store st (some u) now false).1.complaints,
      d.id = c.id →
        d.status = .resolved ∧
        d.admin_reply = some (jsTrim st.replyMessage) ∧
        d.replied_at = some now ∧ d.replied_by = some u) := by
  have hmain : (handleReply store st (some u) now false).1.complaints =
      updateComplaintRows store.complaints c.id (jsTrim st.replyMessage) now
        (some u) := by
    simp [handleReply, hc, if_neg hm]
  have hres : (handleReply store st (some u) now false).2.2 = .success := by
    simp [handleReply, hc, if_neg hm]
  refine ⟨hres, ?_, ?_⟩
  · rw [hmain]
    intro d hd
    obtain ⟨x, hx, hfx⟩ := List.mem_map.mp hd
    by_cases hid : (x.id == c.id) = true
    · rw [if_pos hid] at hfx
      subst hfx
      rfl
    · rw [if_neg hid] at hfx
      subst hfx
      exact hinv x hx
  · rw [hmain]
    intro d hd hdid
    obtain ⟨x, hx, hfx⟩ := List.mem_map.mp hd
    by_cases hid : (x.id == c.id) = true
    · rw [if_pos hid] at hfx
      subst hfx
      exact ⟨rfl, rfl, rfl, rfl⟩
    · rw [if_neg hid] at hfx
      subst hfx
      exact absurd (beq_iff_eq.mpr hdid) hid

/-- Witness for C2: replying Fixed in v2 to the pending complaint of
store0 resolves it with all three reply fields set. -/
theorem handleReply_all_or_nothing_witness :
    replyState0.selectedComplaint = some complaint0 ∧
    jsTrim replyState0.replyMessage ≠ "" ∧
    (∀ d ∈ store0.complaints, complaintInv d = true) ∧
    (∀ d ∈ (handleReply store0 replyState0 (some "adm") "t9" false).1.complaints,
      d.id = complaint0.id →
        d.status = .resolved ∧
        d.admin_reply = some (jsTrim replyState0.replyMessage) ∧
        d.replied_at = some "t9" ∧ d.replied_by = some "adm") :=
  ⟨rfl, by decide, by decide,
   (handleReply_all_or_nothing store0 replyState0 "adm" "t9" complaint0 rfl
     (by decide) (by decide)).2.2⟩

/-- C6: a reply that is empty or whitespace after trimming is rejected by
the guard before any store call: the store, the component state (so the
status of every complaint, in particular pending) and the draft are all
unchanged and the outcome is the rejection, with no write issued. -/
theorem handleReply_rejects_blank (store : Store) (st : AdminState)
    (user : Option String) (now : String) (writeFails : Bool)
    (h : jsTrim st.replyMessage = "") :
    handleReply store st user now writeFails = (store, st, .rejected) := by
  unfold handleReply
  cases st.selectedComplaint <;> simp [h]

/-- Witness for C6: a three-space draft is rejected and store0 is
untouched. -/
theorem handleReply_rejects_blank_witness :
    jsTrim blankReplyState.replyMessage = "" ∧
    handleReply store0 blankReplyState (some "adm") "t9" false =
      (store0, blankReplyState, .rejected) :=
  ⟨by decide,
   handleReply_rejects_blank store0 blankReplyState (some "adm") "t9" false
     (by decide)⟩

/-- C7: when the store write fails, the store is unchanged (the complaint
stays pending), the failure is reported to the caller, and the reply draft
is preserved; moreover in any run the draft is cleared exactly on the
success outcome. -/
theorem handleReply_store_failure_preserves (store : Store) (st : AdminState)
    (user : Option String) (now : String) (c : Complaint)
    (hc : st.selectedComplaint = some c)
    (hm : jsTrim st.replyMessage ≠ "") :
    (handleReply store st user now true).1 = store ∧
    (handleReply store st user now true).2.1.replyMessage = st.replyMessage ∧
    (handleReply store st user now true).2.2 = .failed ∧
    ∀ (store2 : Store) (st2 : AdminState) (u2 : Option String) (n2 : String)
      (wf2 : Bool),
      (handleReply store2 st2 u2 n2 wf2).2.2 = .success →
      (handleReply store2 st2 u2 n2 wf2).2.1.replyMessage = "" := by
  refine ⟨?_, ?_, ?_, ?_⟩
  · simp [handleReply, hc, if_neg hm]
  · simp [handleReply, hc, if_neg hm]
  · simp [handleReply, hc, if_neg hm]
  · intro store2 st2 u2 n2 wf2 hs
    by_cases h2 : jsTrim st2.replyMessage = ""
    · rw [handleReply_eq_of_blank store2 st2 u2 n2 wf2 h2] at hs
      simp at hs
    · cases hsel : st2.selectedComplaint with
      | none =>
        rw [handleReply_eq_of_none store2 st2 u2 n2 wf2 hsel] at hs
        simp at hs
      | some c2 =>
        cases wf2 with
        | true =>
          rw [handleReply_eq_of_failed store2 st2 u2 n2 c2 hsel h2] at hs
          simp at hs
        | false =>
          rw [handleReply_eq_of_success store2 st2 u2 n2 c2 hsel h2]

/-- Witness for C7: a failed write on store0 leaves the store and the
draft intact and reports the failure. -/
theorem handleReply_store_failure_preserves_witness :
    replyState0.selectedComplaint = some complaint0 ∧
    jsTrim replyState0.replyMessage ≠ "" ∧
    (handleReply store0 replyState0 (some "adm") "t9" true).1 = store0 ∧
    (handleReply store0 replyState0 (some "adm") "t9" true).2.1.replyMessage
      = replyState0.replyMessage ∧
    (handleReply store0 replyState0 (some "adm") "t9" true).2.2 = .failed :=
  ⟨rfl, by decide,
   (handleReply_store_failure_preserves store0 replyState0 (some "adm") "t9"
     complaint0 rfl (by decide)).1,
   (handleReply_store_failure_preserves store0 replyState0 (some "adm") "t9"
     complaint0 rfl (by decide)).2.1,
   (handleReply_store_failure_preserves store0 replyState0 (some "adm") "t9"
     complaint0 rfl (by decide)).2.2.1⟩

/-- C8: in a loadAdminData run from a fresh mount in which exactly one of
the three reads fails, the other two collections are populated with their
read results, the failed collection is left empty, and the failure is
logged; all three single-failure configurations are covered. -/
theorem loadAdminData_isolates_failures (store : Store) (st : AdminState)
    (hu : st.users = []) (hr : st.userRoles = []) (hc : st.complaints = []) :
    ((loadAdminData store st ⟨false, false, true⟩).1.users = store.users ∧
     (loadAdminData store st ⟨false, false, true⟩).1.userRoles
       = store.user_roles ∧
     (loadAdminData store st ⟨false, false, true⟩).1.complaints = [] ∧
     (loadAdminData store st ⟨false, false, true⟩).2
       = ["Error loading complaints"]) ∧
    ((loadAdminData store st ⟨true, false, false⟩).1.users = [] ∧
     (loadAdminData store st ⟨true, false, false⟩).1.userRoles
       = store.user_roles ∧
     (loadAdminData store st ⟨true, false, false⟩).1.complaints
       = store.complaints ∧
     (loadAdminData store st ⟨true, false, false⟩).2
       = ["Error loading users"]) ∧
    ((loadAdminData store st ⟨false, true, false⟩).1.users = store.users ∧
     (loadAdminData store st ⟨false, true, false⟩).1.userRoles = [] ∧
     (loadAdminData store st ⟨false, true, false⟩).1.complaints
       = store.complaints ∧
     (loadAdminData store st ⟨false, true, false⟩).2
       = ["Error loading user roles"]) := by
  refine ⟨⟨?_, ?_, ?_, ?_⟩, ⟨?_, ?_, ?_, ?_⟩, ⟨?_, ?_, ?_, ?_⟩⟩ <;>
    simp [loadAdminData, hu, hr, hc]

/-- Witness for C8 on store1 from the fresh mount state. -/
theorem loadAdminData_isolates_failures_witness :
    adminState0.users = [] ∧ adminState0.userRoles = [] ∧
    adminState0.complaints = [] ∧
    ((loadAdminData store1 adminState0 ⟨false, false, true⟩).1.users
       = store1.users ∧
     (loadAdminData store1 adminState0 ⟨false, false, true⟩).1.userRoles
       = store1.user_roles ∧
     (loadAdminData store1 adminState0 ⟨false, false, true⟩).1.complaints
       = [] ∧
     (loadAdminData store1 adminState0 ⟨false, false, true⟩).2
       = ["Error loading complaints"]) :=
  ⟨rfl, rfl, rfl,
   (loadAdminData_isolates_failures store1 adminState0 rfl rfl rfl).1⟩

/-- C10: the duplicate Admin dashboard performs no authorization check.
The /admin route is not wrapped in ProtectedRoute, and for every store,
state and failure pattern, two runs of fetchData by viewers of different
identities and roles issue the same reads of the complaints and contacts
collections and produce the same rendered data. -/
theorem dup_admin_ungated_role_independent :
    routeIsProtected "/admin" = false ∧
    ∀ (store : Store) (st : DupAdminState) (v1 v2 : Option String × Role)
      (cf ctf : Bool),
      fetchData store v1 cf ctf st = fetchData store v2 cf ctf st :=
  ⟨by decide, fun _ _ _ _ _ _ => rfl⟩

end StudyPlanner
